import Mathlib

/-
  Shallow embedding of the edit-session core of the gemini-banana photo editor
  (src/App.tsx and src/components/ToolOptions.tsx).  Image payloads are opaque
  and modelled by a type parameter Img.  JavaScript numbers appearing in the
  coordinate and crop geometry are modelled as rationals; note that rational
  division by zero yields 0 in Lean where JavaScript yields a non-finite value,
  so theorems about the zero-denominator case only state facts that are
  insensitive to the value produced by the division (whether an error is
  reported and whether a hotspot is set), never the numeric value itself.
-/

/-- The active tab of the editor, from the Tab union type in App.tsx. -/
inductive Tab : Type
  | retouch
  | freestyle
  | background
  | adjust
  | filters
  | crop
  | chat
deriving DecidableEq, Repr

/-- The kind of a mutating operation dispatched to the generative collaborator. -/
inductive OpKind : Type
  | retouch
  | filter
  | adjustment
  | background
  | freestyle
deriving DecidableEq, Repr

/-- A chat transcript role, from the ChatMessage type in App.tsx. -/
inductive Role : Type
  | user
  | model
deriving DecidableEq, Repr

/-- A chat transcript entry, from the ChatMessage type in App.tsx. -/
structure ChatMessage : Type where
  role : Role
  text : String
deriving DecidableEq, Repr

/-- A crop rectangle in rendered coordinates (the PixelCrop of react-image-crop). -/
structure CropRect : Type where
  x : ℚ
  y : ℚ
  width : ℚ
  height : ℚ
deriving DecidableEq, Repr

/-- The session state of App.tsx restricted to the fields that the modelled
operations read or write: the version history and its cursor, the retouch
instruction text, the in-flight flag, the last error, the two hotspot slots,
the active tab, the two crop slots, the preview-modal flag and the chat
transcript.  The useState initial values are collected in initialState. -/
structure AppState (Img : Type) : Type where
  history : List Img
  historyIndex : ℤ
  prompt : String
  isLoading : Bool
  error : Option String
  editHotspot : Option (ℤ × ℤ)
  displayHotspot : Option (ℚ × ℚ)
  activeTab : Tab
  crop : Option CropRect
  completedCrop : Option CropRect
  isPreviewOpen : Bool
  chatHistory : List ChatMessage

/-- The initial session state, from the useState defaults of App.tsx:
empty history, cursor -1, empty prompt, not loading, no error, no hotspots,
retouch tab, no crop, preview closed, empty chat transcript. -/
def initialState (Img : Type) : AppState Img where
  history := []
  historyIndex := -1
  prompt := ""
  isLoading := false
  error := none
  editHotspot := none
  displayHotspot := none
  activeTab := Tab.retouch
  crop := none
  completedCrop := none
  isPreviewOpen := false
  chatHistory := []

/-- JavaScript Array.prototype.slice with begin 0: slice(0, e) keeps the
elements before index e, where a negative e counts from the end (clamped at 0)
and an e past the end is clamped to the length.  Used by addImageToHistory. -/
def jsSliceTo {α : Type} (l : List α) (e : ℤ) : List α :=
  if e < 0 then l.take ((l.length : ℤ) + e).toNat else l.take e.toNat

/-- JavaScript indexing history[historyIndex] followed by the nullish
fallback, as in the currentImage binding of App.tsx: out-of-range (including
a negative cursor) yields none. -/
def jsGet {α : Type} (l : List α) (i : ℤ) : Option α :=
  if i < 0 then none else l[i.toNat]?

/-- currentImage from App.tsx: history[historyIndex] ?? null. -/
def currentImage {Img : Type} (s : AppState Img) : Option Img :=
  jsGet s.history s.historyIndex

/-- canUndo from App.tsx line 123: historyIndex > 0. -/
def canUndo {Img : Type} (s : AppState Img) : Bool :=
  s.historyIndex > 0

/-- canRedo from App.tsx line 124: historyIndex < history.length - 1. -/
def canRedo {Img : Type} (s : AppState Img) : Bool :=
  s.historyIndex < (s.history.length : ℤ) - 1

/-- addImageToHistory from App.tsx lines 126-134: truncate the history to the
first historyIndex + 1 elements (Array.prototype.slice semantics), push the
new image, move the cursor to the new tail, and clear both crop slots. -/
def addImageToHistory {Img : Type} (s : AppState Img) (newImageFile : Img) :
    AppState Img :=
  let newHistory := jsSliceTo s.history (s.historyIndex + 1) ++ [newImageFile]
  { s with
    history := newHistory
    historyIndex := (newHistory.length : ℤ) - 1
    crop := none
    completedCrop := none }

/-- handleImageUpload from App.tsx lines 136-146: reset the session to a
single-element history around the uploaded file. -/
def handleImageUpload {Img : Type} (s : AppState Img) (file : Img) :
    AppState Img :=
  { s with
    error := none
    history := [file]
    historyIndex := 0
    editHotspot := none
    displayHotspot := none
    activeTab := Tab.retouch
    crop := none
    completedCrop := none
    chatHistory := [] }

/-- handleUndo from App.tsx lines 290-292: if canUndo, move the cursor back. -/
def handleUndo {Img : Type} (s : AppState Img) : AppState Img :=
  if canUndo s then { s with historyIndex := s.historyIndex - 1 } else s

/-- handleRedo from App.tsx lines 294-296, verbatim: if canRedo, the code sets
historyIndex to historyIndex - 1 (it decrements, exactly as written in the
source). -/
def handleRedo {Img : Type} (s : AppState Img) : AppState Img :=
  if canRedo s then { s with historyIndex := s.historyIndex - 1 } else s

/-- handleImageClick from App.tsx lines 298-320.  The arguments are the
natural width and height of the img element, its rendered width and height,
and the click position relative to the element top-left corner (clientX -
rect.left, clientY - rect.top already applied).  In retouch mode the handler
scales the click into natural coordinates with Math.round, stores both
hotspots and clears the error; in any other mode except crop it opens the
preview modal. -/
def handleImageClick {Img : Type} (s : AppState Img)
    (naturalWidth naturalHeight width height clientX clientY : ℚ) :
    AppState Img :=
  if s.activeTab = Tab.retouch then
    let scaleX := naturalWidth / width
    let scaleY := naturalHeight / height
    let naturalX : ℤ := round (clientX * scaleX)
    let naturalY : ℤ := round (clientY * scaleY)
    { s with
      editHotspot := some (naturalX, naturalY)
      displayHotspot := some (clientX, clientY)
      error := none }
  else if s.activeTab ≠ Tab.crop then
    { s with isPreviewOpen := true }
  else
    s

/-- A request issued to the external generative collaborator: the source image
at dispatch time, the instruction text, the natural-coordinate hotspot (only
for retouch) and the operation kind. -/
structure GenRequest (Img : Type) : Type where
  source : Img
  instruction : String
  hotspot : Option (ℤ × ℤ)
  kind : OpKind

/-- The validation message set when no image is loaded, per operation kind,
from the first guard of each handler in App.tsx (the freestyle handler reuses
the adjustment wording in the source). -/
def noImageMsg : OpKind → String
  | OpKind.retouch => "没有加载可编辑的图片。"
  | OpKind.filter => "没有加载可应用滤镜的图片。"
  | OpKind.adjustment => "没有加载可应用调整的图片。"
  | OpKind.background => "没有加载可更换背景的图片。"
  | OpKind.freestyle => "没有加载可应用调整的图片。"

/-- The message template wrapped around a collaborator failure, per operation
kind, from the catch block of each handler in App.tsx. -/
def failMessage : OpKind → String
  | OpKind.retouch => "生成图片失败。 "
  | OpKind.filter => "应用滤镜失败。 "
  | OpKind.adjustment => "应用调整失败。 "
  | OpKind.background => "更换背景失败。 "
  | OpKind.freestyle => "自由创作失败。 "

/-- The synchronous part of handleGenerate, App.tsx lines 148-166: validate
that an image is loaded, that the instruction is non-empty and that a hotspot
is set; on success enter the loading state, clear the error and issue exactly
one request to the collaborator. -/
def handleGenerateStart {Img : Type} (s : AppState Img) :
    AppState Img × Option (GenRequest Img) :=
  match currentImage s with
  | none => ({ s with error := some (noImageMsg OpKind.retouch) }, none)
  | some img =>
    if s.prompt.trim = "" then
      ({ s with error := some "请输入您想如何编辑的描述。" }, none)
    else
      match s.editHotspot with
      | none => ({ s with error := some "请在图片上点击以选择一个编辑区域。" }, none)
      | some hs =>
        ({ s with isLoading := true, error := none },
         some ⟨img, s.prompt, some hs, OpKind.retouch⟩)

/-- The retouch submit at the UI boundary: the generate button of App.tsx line
502 is disabled while isLoading, while the trimmed prompt is empty or while no
hotspot is set, so a click dispatches handleGenerateStart only when all three
guards pass and is otherwise a no-op that issues no request. -/
def submitGenerate {Img : Type} (s : AppState Img) :
    AppState Img × Option (GenRequest Img) :=
  if s.isLoading ∨ s.prompt.trim = "" ∨ s.editHotspot = none then (s, none)
  else handleGenerateStart s

/-- The synchronous part of the four prompt-only handlers (handleApplyFilter,
handleApplyAdjustment, handleApplyBackground, handleApplyFreestyle, App.tsx
lines 183-269): validate that an image is loaded; on success enter the loading
state, clear the error and issue exactly one request. -/
def handleOpStart {Img : Type} (kind : OpKind) (s : AppState Img)
    (opPrompt : String) : AppState Img × Option (GenRequest Img) :=
  match currentImage s with
  | none => ({ s with error := some (noImageMsg kind) }, none)
  | some img =>
    ({ s with isLoading := true, error := none },
     some ⟨img, opPrompt, none, kind⟩)

/-- Modelled from the spec: the submit buttons of FilterPanel, AdjustmentPanel
and BackgroundPanel are not under src, so their guard follows the spec rule
that the dispatcher rejects a mutating submit while one is pending and the
in-src FreestylePanel (src/components/ToolOptions.tsx lines 17 and 58), whose
apply button is disabled while isLoading or while the trimmed instruction is
empty: a submit dispatches only when not loading and the instruction is
non-empty, and is otherwise a no-op that issues no request. -/
def submitOp {Img : Type} (kind : OpKind) (s : AppState Img)
    (opPrompt : String) : AppState Img × Option (GenRequest Img) :=
  if s.isLoading ∨ opPrompt.trim = "" then (s, none)
  else handleOpStart kind s opPrompt

/-- The resumption of a handler after the awaited collaborator call succeeds
(App.tsx lines 168-173 for retouch, the try blocks of the other handlers):
append the returned image to the history; for retouch additionally clear both
hotspot slots and the prompt; finally leave the loading state. -/
def resolveOpSuccess {Img : Type} (kind : OpKind) (s : AppState Img)
    (img : Img) : AppState Img :=
  match kind with
  | OpKind.retouch =>
    let s1 := addImageToHistory s img
    { s1 with
      editHotspot := none
      displayHotspot := none
      prompt := ""
      isLoading := false }
  | _ => { addImageToHistory s img with isLoading := false }

/-- The resumption of a handler after the awaited collaborator call fails (the
catch and finally blocks of each handler in App.tsx): record the wrapped
failure message as the session error and leave the loading state; the history
and its cursor are not touched. -/
def resolveOpFailure {Img : Type} (kind : OpKind) (s : AppState Img)
    (msg : String) : AppState Img :=
  { s with error := some (failMessage kind ++ msg), isLoading := false }

/-- The geometry output of getCroppedImg, App.tsx lines 40-68: the final
canvas dimensions and the drawImage source and destination rectangles. -/
structure CropOut : Type where
  canvasWidth : ℚ
  canvasHeight : ℚ
  srcX : ℚ
  srcY : ℚ
  srcW : ℚ
  srcH : ℚ
  destX : ℚ
  destY : ℚ
  destW : ℚ
  destH : ℚ
deriving DecidableEq, Repr

/-- getCroppedImg from App.tsx lines 40-68.  The scale factors divide the
natural size by the rendered size; the canvas is first sized to the rendered
crop and then resized to the rendered crop times the device pixel density
factor (window.devicePixelRatio with fallback 1 when it is falsy, modelled by
the zero test); drawImage samples the natural-pixel source rectangle and draws
it into the rendered-size destination rectangle. -/
def getCroppedImg (naturalWidth naturalHeight width height : ℚ)
    (c : CropRect) (density : ℚ) : CropOut :=
  let scaleX := naturalWidth / width
  let scaleY := naturalHeight / height
  let pr := if density = 0 then 1 else density
  { canvasWidth := c.width * pr
    canvasHeight := c.height * pr
    srcX := c.x * scaleX
    srcY := c.y * scaleY
    srcW := c.width * scaleX
    srcH := c.height * scaleY
    destX := 0
    destY := 0
    destW := c.width
    destH := c.height }

/-- The per-axis rendered-to-natural mapping of handleImageClick, App.tsx
lines 303-312: scale = natural / rendered, coordinate = round(pointer * scale). -/
def toNatural (pointer natural rendered : ℚ) : ℤ :=
  round (pointer * (natural / rendered))

/-- Modelled from the spec round-trip property (no inverse mapping exists in
the source): the natural coordinate divided by the same scale factor maps a
natural coordinate back to rendered space. -/
def backToRendered (pointer natural rendered : ℚ) : ℚ :=
  ((toNatural pointer natural rendered : ℤ) : ℚ) / (natural / rendered)

/-- A concrete two-version session, built by uploading image 0 and appending
image 1: history [0, 1] with the cursor at the tail.  Used as witness input. -/
def sessionAB : AppState Nat :=
  addImageToHistory (handleImageUpload (initialState Nat) 0) 1

/-- A concrete session with one image loaded and a mutating operation in
flight (isLoading set, as after a successful dispatch).  Witness input. -/
def sessionBusy : AppState Nat :=
  { initialState Nat with
    history := [5]
    historyIndex := 0
    prompt := "p"
    isLoading := true }



/-! Theorems. -/

/-- Claim C1 (code bug evidence): on a session with history [0, 1] and cursor
0 (so canRedo holds, length > 1 and cursor < length - 1), handleRedo as
written in the source sets the cursor to -1 instead of incrementing it to 1;
the version sequence itself is unchanged.  The spec states the corrected
contract (cursor += 1), which the code contradicts. -/
theorem redo_decrements_at_failing_input :
    canRedo (handleUndo sessionAB) = true ∧
    (handleUndo sessionAB).historyIndex = 0 ∧
    (handleUndo sessionAB).history = [0, 1] ∧
    (handleRedo (handleUndo sessionAB)).historyIndex = -1 ∧
    (handleRedo (handleUndo sessionAB)).history = [0, 1] := by
  decide

/-- Claim C3 (code bug evidence): the operation sequence upload 0, append 1,
undo, redo, starting from the initial session, reaches a state with history
length 2 and cursor -1, violating the invariant 0 <= cursor < length claimed
to be preserved by every operation.  The violation comes from the handleRedo
decrement slip. -/
theorem invariant_violated_after_redo :
    0 < (handleRedo (handleUndo sessionAB)).history.length ∧
    ¬ (0 ≤ (handleRedo (handleUndo sessionAB)).historyIndex ∧
        (handleRedo (handleUndo sessionAB)).historyIndex
          < ((handleRedo (handleUndo sessionAB)).history.length : ℤ)) := by
  decide

/-- Claim C2: for a session whose cursor i satisfies 0 <= i < length, appending
a version v yields the first i + 1 elements of the old history followed by v
(the branch cut discards everything after the cursor), the cursor moves to
i + 1, and when the cursor was at the tail the length grows by exactly 1. -/
theorem append_branch_cut {Img : Type} (s : AppState Img) (v : Img)
    (h0 : 0 ≤ s.historyIndex) (h1 : s.historyIndex < (s.history.length : ℤ)) :
    (addImageToHistory s v).history
        = s.history.take (s.historyIndex.toNat + 1) ++ [v] ∧
    (addImageToHistory s v).historyIndex = s.historyIndex + 1 ∧
    (s.historyIndex = (s.history.length : ℤ) - 1 →
      (addImageToHistory s v).history.length = s.history.length + 1) := by
  have hnat : (s.historyIndex + 1).toNat = s.historyIndex.toNat + 1 := by omega
  have hnot : ¬ (s.historyIndex + 1 < 0) := by omega
  have hle : s.historyIndex.toNat + 1 ≤ s.history.length := by omega
  refine ⟨?_, ?_, ?_⟩
  · simp [addImageToHistory, jsSliceTo, hnot, hnat]
  · simp only [addImageToHistory, jsSliceTo, if_neg hnot, hnat,
      List.length_append, List.length_take, List.length_cons,
      List.length_nil, Nat.min_eq_left hle]
    omega
  · intro htail
    simp only [addImageToHistory, jsSliceTo, if_neg hnot, hnat,
      List.length_append, List.length_take, List.length_cons,
      List.length_nil, Nat.min_eq_left hle]
    omega

/-- Witness for append_branch_cut at the concrete session with history [0, 1]
and cursor 1, appending image 2. -/
theorem append_branch_cut_witness :
    (0 ≤ sessionAB.historyIndex ∧
      sessionAB.historyIndex < (sessionAB.history.length : ℤ)) ∧
    ((addImageToHistory sessionAB 2).history
        = sessionAB.history.take (sessionAB.historyIndex.toNat + 1) ++ [2] ∧
    (addImageToHistory sessionAB 2).historyIndex = sessionAB.historyIndex + 1 ∧
    (sessionAB.historyIndex = (sessionAB.history.length : ℤ) - 1 →
      (addImageToHistory sessionAB 2).history.length
        = sessionAB.history.length + 1)) :=
  ⟨⟨by decide, by decide⟩, append_branch_cut sessionAB 2 (by decide) (by decide)⟩

/-- Claim C4: in retouch mode, with positive rendered dimensions, a click at
rendered position (cx, cy) stores the natural hotspot computed per axis as
round(pointer * natural / rendered). -/
theorem retouch_click_maps_coords {Img : Type} (s : AppState Img)
    (nw nh w h cx cy : ℚ) (hmode : s.activeTab = Tab.retouch)
    (_hw : 0 < w) (_hh : 0 < h) :
    (handleImageClick s nw nh w h cx cy).editHotspot
        = some (round (cx * nw / w), round (cy * nh / h)) ∧
    (handleImageClick s nw nh w h cx cy).displayHotspot = some (cx, cy) := by
  constructor
  · simp [handleImageClick, hmode, mul_div_assoc]
  · simp [handleImageClick, hmode]

/-- Witness for retouch_click_maps_coords: a 100 x 200 natural image displayed
at 50 x 100, clicked at rendered (25, 50), yields natural hotspot (50, 100). -/
theorem retouch_click_maps_coords_witness :
    (initialState Nat).activeTab = Tab.retouch ∧ (0 : ℚ) < 50 ∧ (0 : ℚ) < 100 ∧
    (handleImageClick (initialState Nat) 100 200 50 100 25 50).editHotspot
      = some (50, 100) := by
  refine ⟨rfl, by norm_num, by norm_num, ?_⟩
  have h := retouch_click_maps_coords (initialState Nat) 100 200 50 100 25 50
    rfl (by norm_num) (by norm_num)
  rw [h.1]
  norm_num [round_eq]

/-- Claim C5: while a mutating operation is in flight (isLoading), a second
submit of any kind is a no-op that issues no request and changes no state, and
the eventual success of the first operation appends exactly one version to the
history. -/
theorem busy_submit_rejected {Img : Type} (kind : OpKind) (s : AppState Img)
    (p : String) (img : Img) (hbusy : s.isLoading = true) :
    submitGenerate s = (s, none) ∧
    submitOp kind s p = (s, none) ∧
    (resolveOpSuccess kind s img).history
      = jsSliceTo s.history (s.historyIndex + 1) ++ [img] ∧
    (resolveOpSuccess kind s img).history.length
      = (jsSliceTo s.history (s.historyIndex + 1)).length + 1 := by
  refine ⟨?_, ?_, ?_, ?_⟩
  · simp [submitGenerate, hbusy]
  · simp [submitOp, hbusy]
  · cases kind <;> simp [resolveOpSuccess, addImageToHistory]
  · cases kind <;> simp [resolveOpSuccess, addImageToHistory]

/-- Witness for busy_submit_rejected at a concrete busy session, a filter
submit and a returned image 7. -/
theorem busy_submit_rejected_witness :
    sessionBusy.isLoading = true ∧
    (submitGenerate sessionBusy = (sessionBusy, none) ∧
    submitOp OpKind.filter sessionBusy "f" = (sessionBusy, none) ∧
    (resolveOpSuccess OpKind.filter sessionBusy 7).history
      = jsSliceTo sessionBusy.history (sessionBusy.historyIndex + 1) ++ [7] ∧
    (resolveOpSuccess OpKind.filter sessionBusy 7).history.length
      = (jsSliceTo sessionBusy.history (sessionBusy.historyIndex + 1)).length
          + 1) :=
  ⟨rfl, busy_submit_rejected OpKind.filter sessionBusy "f" 7 rfl⟩

/-- Claim C6: when the collaborator call of any mutating operation fails, the
history sequence and the cursor are exactly as before, the session leaves the
loading state, and an error describing the failure (the per-kind message
around the failure reason) is recorded. -/
theorem failure_preserves_session {Img : Type} (kind : OpKind)
    (s : AppState Img) (msg : String) :
    (resolveOpFailure kind s msg).history = s.history ∧
    (resolveOpFailure kind s msg).historyIndex = s.historyIndex ∧
    (resolveOpFailure kind s msg).isLoading = false ∧
    (resolveOpFailure kind s msg).error = some (failMessage kind ++ msg) :=
  ⟨rfl, rfl, rfl, rfl⟩

/-- Claim C7 (counterexample): with rendered width 0 in retouch mode, the
click handler does not report any error: it clears the error slot and still
stores a hotspot (the source divides by zero; in JavaScript the stored
coordinate is non-finite). -/
theorem zero_width_click_no_error :
    (handleImageClick (initialState Nat) 100 200 0 100 25 50).error = none ∧
    ((handleImageClick (initialState Nat) 100 200 0 100 25 50).editHotspot
      ).isSome = true := by
  decide

/-- Claim C7 (amended): if the rendered width or the rendered height is zero,
the coordinate mapping does not fail: the handler performs the unguarded
division, stores a hotspot, clears the error slot and leaves the history
unchanged. -/
theorem zero_size_click_sets_hotspot {Img : Type} (s : AppState Img)
    (nw nh w h cx cy : ℚ) (hmode : s.activeTab = Tab.retouch) :
    ((handleImageClick s nw nh 0 h cx cy).error = none ∧
      ((handleImageClick s nw nh 0 h cx cy).editHotspot).isSome = true ∧
      (handleImageClick s nw nh 0 h cx cy).history = s.history) ∧
    ((handleImageClick s nw nh w 0 cx cy).error = none ∧
      ((handleImageClick s nw nh w 0 cx cy).editHotspot).isSome = true ∧
      (handleImageClick s nw nh w 0 cx cy).history = s.history) := by
  constructor <;> refine ⟨?_, ?_, ?_⟩ <;> simp [handleImageClick, hmode]

/-- Witness for zero_size_click_sets_hotspot at the initial session. -/
theorem zero_size_click_sets_hotspot_witness :
    (initialState Nat).activeTab = Tab.retouch ∧
    (((handleImageClick (initialState Nat) 100 200 0 100 25 50).error = none ∧
      ((handleImageClick (initialState Nat) 100 200 0 100 25 50).editHotspot
        ).isSome = true ∧
      (handleImageClick (initialState Nat) 100 200 0 100 25 50).history
        = (initialState Nat).history) ∧
    ((handleImageClick (initialState Nat) 100 200 100 0 25 50).error = none ∧
      ((handleImageClick (initialState Nat) 100 200 100 0 25 50).editHotspot
        ).isSome = true ∧
      (handleImageClick (initialState Nat) 100 200 100 0 25 50).history
        = (initialState Nat).history)) :=
  ⟨rfl, zero_size_click_sets_hotspot (initialState Nat) 100 200 100 100 25 50 rfl⟩

/-- Claim C8 (counterexample): for a 100 x 200 natural image rendered at
50 x 100, a full-frame crop (0, 0, 50, 100) with density 1 samples the natural
rectangle of width 100 but sizes the output canvas at width 50: the extraction
is at rendered resolution times density, not the natural rectangle width times
density as claimed. -/
theorem crop_not_natural_resolution :
    (getCroppedImg 100 200 50 100 ⟨0, 0, 50, 100⟩ 1).srcW = 100 ∧
    (getCroppedImg 100 200 50 100 ⟨0, 0, 50, 100⟩ 1).canvasWidth = 50 ∧
    (getCroppedImg 100 200 50 100 ⟨0, 0, 50, 100⟩ 1).canvasWidth
      ≠ (getCroppedImg 100 200 50 100 ⟨0, 0, 50, 100⟩ 1).srcW * 1 := by
  refine ⟨?_, ?_, ?_⟩ <;> norm_num [getCroppedImg]

/-- Claim C8 (amended): for a positive density factor, the output canvas
dimensions are the rendered crop width and height each multiplied by the
density, and the sampled source rectangle is the natural-pixel rectangle
(x * scaleX, y * scaleY, width * scaleX, height * scaleY), independent of the
density. -/
theorem crop_extraction_geometry (nw nh w h : ℚ) (c : CropRect) (d : ℚ)
    (hd : 0 < d) :
    (getCroppedImg nw nh w h c d).canvasWidth = c.width * d ∧
    (getCroppedImg nw nh w h c d).canvasHeight = c.height * d ∧
    (getCroppedImg nw nh w h c d).srcX = c.x * (nw / w) ∧
    (getCroppedImg nw nh w h c d).srcY = c.y * (nh / h) ∧
    (getCroppedImg nw nh w h c d).srcW = c.width * (nw / w) ∧
    (getCroppedImg nw nh w h c d).srcH = c.height * (nh / h) := by
  have hne : d ≠ 0 := ne_of_gt hd
  refine ⟨?_, ?_, ?_, ?_, ?_, ?_⟩ <;> simp [getCroppedImg, hne]

/-- Witness for crop_extraction_geometry at a concrete crop with density 2. -/
theorem crop_extraction_geometry_witness :
    (0 : ℚ) < 2 ∧
    ((getCroppedImg 100 200 50 100 ⟨10, 20, 30, 40⟩ 2).canvasWidth
        = (30 : ℚ) * 2 ∧
    (getCroppedImg 100 200 50 100 ⟨10, 20, 30, 40⟩ 2).canvasHeight
        = (40 : ℚ) * 2 ∧
    (getCroppedImg 100 200 50 100 ⟨10, 20, 30, 40⟩ 2).srcX
        = (10 : ℚ) * (100 / 50) ∧
    (getCroppedImg 100 200 50 100 ⟨10, 20, 30, 40⟩ 2).srcY
        = (20 : ℚ) * (200 / 100) ∧
    (getCroppedImg 100 200 50 100 ⟨10, 20, 30, 40⟩ 2).srcW
        = (30 : ℚ) * (100 / 50) ∧
    (getCroppedImg 100 200 50 100 ⟨10, 20, 30, 40⟩ 2).srcH
        = (40 : ℚ) * (200 / 100)) :=
  ⟨by norm_num,
    crop_extraction_geometry 100 200 50 100 ⟨10, 20, 30, 40⟩ 2 (by norm_num)⟩

/-- Claim C9 (counterexample): the round trip is not always within one pixel:
for a 10-wide natural image rendered at width 100 (scale 1/10), the rendered
point 5 maps to natural coordinate round(0.5) = 1 and back to rendered 10, an
error of 5 pixels, although the rendered width 100 is positive. -/
theorem roundtrip_off_by_five :
    (0 : ℚ) < 100 ∧ (1 : ℚ) < |backToRendered 5 10 100 - 5| := by
  constructor
  · norm_num
  · norm_num [backToRendered, toNatural, round_eq]

/-- Claim C9 (amended): whenever the natural size is positive and the rendered
size does not exceed twice the natural size (scale at least one half), the
round trip through round and the inverse scale is within one pixel of the
original rendered point. -/
theorem roundtrip_within_one (p n r : ℚ) (hr : 0 < r) (hn : 0 < n)
    (h2 : r ≤ 2 * n) : |backToRendered p n r - p| ≤ 1 := by
  have hs : 0 < n / r := div_pos hn hr
  have key : |((round (p * (n / r)) : ℤ) : ℚ) - p * (n / r)| ≤ 1 / 2 := by
    rw [abs_sub_comm]
    exact abs_sub_round (p * (n / r))
  have hrw : backToRendered p n r - p
      = (((round (p * (n / r)) : ℤ) : ℚ) - p * (n / r)) / (n / r) := by
    unfold backToRendered toNatural
    rw [sub_div, mul_div_cancel_right₀ _ (ne_of_gt hs)]
  rw [hrw, abs_div, abs_of_pos hs, div_le_one hs]
  have h12 : (1 : ℚ) / 2 ≤ n / r := by
    rw [div_le_div_iff₀ (by norm_num) hr]
    linarith
  exact key.trans h12

/-- Witness for roundtrip_within_one at pointer 3 with natural and rendered
width both 10. -/
theorem roundtrip_within_one_witness :
    (0 : ℚ) < 10 ∧ (10 : ℚ) ≤ 2 * 10 ∧ |backToRendered 3 10 10 - 3| ≤ 1 :=
  ⟨by norm_num, by norm_num,
    roundtrip_within_one 3 10 10 (by norm_num) (by norm_num) (by norm_num)⟩

/-- Claim C10: every append clears both the active crop and the completed
crop selection, directly through addImageToHistory and hence through the
success resumption of every operation kind. -/
theorem append_clears_crop {Img : Type} (s : AppState Img) (v : Img)
    (kind : OpKind) (img : Img) :
    (addImageToHistory s v).crop = none ∧
    (addImageToHistory s v).completedCrop = none ∧
    (resolveOpSuccess kind s img).crop = none ∧
    (resolveOpSuccess kind s img).completedCrop = none := by
  refine ⟨rfl, rfl, ?_, ?_⟩ <;> cases kind <;> rfl
